/-
Verification of the adafruit-mpr121 driver (src/lib.rs) against its
natural-language specification.

The driver talks to an I2C transport.  We embed the transport as an
oracle: a function from the index of the bus operation (0-based, in
issue order) to the transport's response, `Except Nat Nat` — `.error e`
is a transport error with code `e`, `.ok v` is a successful response
carrying the value read (ignored for writes).  Running a driver
function against an oracle yields its outcome together with the trace
of bus operations actually issued, in order.

Machine integers are modelled as `Nat` with explicit `% 256` / `% 65536`
where the Rust types (u8 / u16) truncate or wrap.
-/
import Mathlib

/-- A bus operation as issued on the wire: SMBus byte write, byte read,
or word read, at an 8-bit register address. -/
inductive BusOp where
  | writeByte (addr val : Nat)
  | readByte (addr : Nat)
  | readWord (addr : Nat)
deriving DecidableEq, Repr

/-- Outcome of running a driver routine: normal return, a propagated
transport error (the code's `Mpr121Error` = `LinuxI2CError`), or a Rust
`panic!` (the code has no other error variant — in particular no
`UnexpectedDeviceState`). -/
inductive RunResult (α : Type) where
  | ok (a : α)
  | transport (e : Nat)
  | panicked (msg : String)
deriving DecidableEq

/-- Transport oracle: response to the k-th bus operation. -/
def Oracle : Type := Nat → Except Nat Nat

/-- Default I2C address for MPR121 (`MPR121_I2CADDR_DEFAULT`). -/
def MPR121_I2CADDR_DEFAULT : Nat := 0x5A

/-- Default touch threshold (`MPR121_TOUCH_THRESHOLD_DEFAULT`). -/
def MPR121_TOUCH_THRESHOLD_DEFAULT : Nat := 12

/-- Default release threshold (`MPR121_RELEASE_THRESHOLD_DEFAULT`). -/
def MPR121_RELEASE_THRESHOLD_DEFAULT : Nat := 6

namespace Mpr121

def REG_TOUCHSTATUS_L : Nat := 0x00
def REG_MHDR : Nat := 0x2B
def REG_NHDR : Nat := 0x2C
def REG_NCLR : Nat := 0x2D
def REG_FDLR : Nat := 0x2E
def REG_MHDF : Nat := 0x2F
def REG_NHDF : Nat := 0x30
def REG_NCLF : Nat := 0x31
def REG_FDLF : Nat := 0x32
def REG_NHDT : Nat := 0x33
def REG_NCLT : Nat := 0x34
def REG_FDLT : Nat := 0x35
def REG_TOUCHTH_0 : Nat := 0x41
def REG_RELEASETH_0 : Nat := 0x42
def REG_DEBOUNCE : Nat := 0x5B
def REG_CONFIG1 : Nat := 0x5C
def REG_CONFIG2 : Nat := 0x5D
def REG_ECR : Nat := 0x5E
def REG_SOFTRESET : Nat := 0x80

end Mpr121

/-- One step of `reset_with_thresholds`: either
`smbus_write_byte_data(addr, val)?` or the config2 check
`if smbus_read_byte_data(REG_CONFIG2)? != 0x24 { panic!(...) }`
(the only two statement shapes occurring in the source routine). -/
inductive ResetStep where
  | write (addr val : Nat)
  | checkConfig2
deriving DecidableEq

/-- The bus operation a reset step issues on the wire. -/
def ResetStep.op : ResetStep → BusOp
  | .write a v => .writeByte a v
  | .checkConfig2 => .readByte Mpr121.REG_CONFIG2

/-- Runs the steps of a reset sequence against the oracle, starting at
operation index `idx`.  A `?`-propagated transport error or a `panic!`
stops the sequence; the trace records every operation that was issued
(including the failing one).  A byte read returns a u8, hence `% 256`. -/
def runResetSteps (oracle : Oracle) : List ResetStep → Nat → RunResult Unit × List BusOp
  | [], _ => (.ok (), [])
  | .write a v :: rest, idx =>
    match oracle idx with
    | .error e => (.transport e, [BusOp.writeByte a v])
    | .ok _ =>
      let r := runResetSteps oracle rest (idx + 1)
      (r.1, BusOp.writeByte a v :: r.2)
  | .checkConfig2 :: rest, idx =>
    match oracle idx with
    | .error e => (.transport e, [BusOp.readByte Mpr121.REG_CONFIG2])
    | .ok v =>
      if v % 256 ≠ 0x24 then
        (.panicked "Failed to find MPR121 in expected config state!",
         [BusOp.readByte Mpr121.REG_CONFIG2])
      else
        let r := runResetSteps oracle rest (idx + 1)
        (r.1, BusOp.readByte Mpr121.REG_CONFIG2 :: r.2)

/-- The threshold loop of the source:
`for i in 0..12 { write(REG_TOUCHTH_0 + 2*i, touch)?; write(REG_RELEASETH_0 + 2*i, release)?; }`. -/
def thresholdSteps (touch release : Nat) : List ResetStep :=
  (List.range 12).flatMap fun i =>
    [ResetStep.write (Mpr121.REG_TOUCHTH_0 + 2 * i) touch,
     ResetStep.write (Mpr121.REG_RELEASETH_0 + 2 * i) release]

/-- The steps of `Mpr121::reset_with_thresholds`, in source order. -/
def resetSteps (touch release : Nat) : List ResetStep :=
  [ResetStep.write Mpr121.REG_SOFTRESET 0x63,
   ResetStep.write Mpr121.REG_ECR 0x00,
   ResetStep.checkConfig2]
  ++ thresholdSteps touch release
  ++ [ResetStep.write Mpr121.REG_MHDR 0x01,
      ResetStep.write Mpr121.REG_NHDR 0x01,
      ResetStep.write Mpr121.REG_NCLR 0x0E,
      ResetStep.write Mpr121.REG_FDLR 0x00,
      ResetStep.write Mpr121.REG_MHDF 0x01,
      ResetStep.write Mpr121.REG_NHDF 0x05,
      ResetStep.write Mpr121.REG_NCLF 0x01,
      ResetStep.write Mpr121.REG_FDLF 0x00,
      ResetStep.write Mpr121.REG_NHDT 0x00,
      ResetStep.write Mpr121.REG_NCLT 0x00,
      ResetStep.write Mpr121.REG_FDLT 0x00,
      ResetStep.write Mpr121.REG_DEBOUNCE 0x00,
      ResetStep.write Mpr121.REG_CONFIG1 0x10,
      ResetStep.write Mpr121.REG_CONFIG2 0x20,
      ResetStep.write Mpr121.REG_ECR 0x8F]

/-- `Mpr121::reset_with_thresholds(touch, release)` run against an
oracle: outcome and issued bus-operation trace.  (The 1 ms settle sleep
after the soft reset issues no bus operation and is not modelled.) -/
def Mpr121.reset_with_thresholds (oracle : Oracle) (touch release : Nat) :
    RunResult Unit × List BusOp :=
  runResetSteps oracle (resetSteps touch release) 0

/-- `Mpr121::reset()`: `reset_with_thresholds` at the default thresholds. -/
def Mpr121.reset (oracle : Oracle) : RunResult Unit × List BusOp :=
  Mpr121.reset_with_thresholds oracle
    MPR121_TOUCH_THRESHOLD_DEFAULT MPR121_RELEASE_THRESHOLD_DEFAULT

/-- Touch status for all pins: wraps the 16-bit touch-status register
value (`Mpr121TouchStatus`). -/
structure Mpr121TouchStatus where
  status : Nat
deriving DecidableEq, Repr

/-- `Mpr121TouchStatus::new` — wraps the u16 value as-is. -/
def Mpr121TouchStatus.new (touch_status : Nat) : Mpr121TouchStatus :=
  { status := touch_status }

/-- Number of the first pin (`Mpr121TouchStatus::first`). -/
def Mpr121TouchStatus.first : Nat := 0

/-- Number of the last pin (`Mpr121TouchStatus::last`). -/
def Mpr121TouchStatus.last : Nat := 11

/-- `Mpr121TouchStatus::touched(item)`:
`if item <= last { status >> item & 0x1 != 0 } else { false }`. -/
def Mpr121TouchStatus.touched (self : Mpr121TouchStatus) (item : Nat) : Bool :=
  if item ≤ Mpr121TouchStatus.last then
    decide (self.status >>> item &&& 0x1 ≠ 0)
  else
    false

/-- `Mpr121TouchStatus::was_touched()`: `status > 0`. -/
def Mpr121TouchStatus.was_touched (self : Mpr121TouchStatus) : Bool :=
  decide (self.status > 0)

/-- `Mpr121::touch_status()`: one 16-bit word read at
`REG_TOUCHSTATUS_L`, wrapped in `Mpr121TouchStatus` on success.  The
`% 65536` models the u16 return type of `smbus_read_word_data`. -/
def Mpr121.touch_status (oracle : Oracle) :
    RunResult Mpr121TouchStatus × List BusOp :=
  match oracle 0 with
  | .error e => (.transport e, [BusOp.readWord Mpr121.REG_TOUCHSTATUS_L])
  | .ok v => (.ok (Mpr121TouchStatus.new (v % 65536)),
              [BusOp.readWord Mpr121.REG_TOUCHSTATUS_L])

/-- Iterator over the pins of a `Mpr121TouchStatus`
(`Mpr121TouchStatusIterator`); `count` is a u8 in the source. -/
structure Mpr121TouchStatusIterator where
  status : Mpr121TouchStatus
  count : Nat
deriving DecidableEq, Repr

/-- `Mpr121TouchStatus::iter()`: iterator with `count = 0`. -/
def Mpr121TouchStatus.iter (self : Mpr121TouchStatus) : Mpr121TouchStatusIterator :=
  { status := self, count := 0 }

/-- `Mpr121TouchStatusIterator::next`: `self.count += 1; if self.count <= 12
{ Some(self.status.touched(self.count - 1)) } else { None }`.  `count` is a
u8, so the increment and the decrement wrap modulo 256 (release-build
semantics; a debug build panics on the overflow instead). -/
def Mpr121TouchStatusIterator.next (self : Mpr121TouchStatusIterator) :
    Option Bool × Mpr121TouchStatusIterator :=
  let c := (self.count + 1) % 256
  if c ≤ 12 then
    (some (self.status.touched ((c + 256 - 1) % 256)), { self with count := c })
  else
    (none, { self with count := c })

/-- Calls `next` `n` times, collecting the outputs in order. -/
def nextN : Mpr121TouchStatusIterator → Nat → List (Option Bool) × Mpr121TouchStatusIterator
  | it, 0 => ([], it)
  | it, n + 1 =>
    let r := it.next
    let rest := nextN r.2 n
    (r.1 :: rest.1, rest.2)

/-- The full bus-operation trace of a successful `reset_with_thresholds`
run, with the literal register addresses and values spelled out:
soft-reset, ECR clear, config2 readback, the 24 threshold writes at
0x41+2i / 0x42+2i carrying the caller-supplied values, the 11 baseline
filter writes, debounce, config1, config2, and the final ECR enable. -/
def expectedResetTrace (touch release : Nat) : List BusOp :=
  [BusOp.writeByte 0x80 0x63,
   BusOp.writeByte 0x5E 0x00,
   BusOp.readByte 0x5D,
   BusOp.writeByte 0x41 touch, BusOp.writeByte 0x42 release,
   BusOp.writeByte 0x43 touch, BusOp.writeByte 0x44 release,
   BusOp.writeByte 0x45 touch, BusOp.writeByte 0x46 release,
   BusOp.writeByte 0x47 touch, BusOp.writeByte 0x48 release,
   BusOp.writeByte 0x49 touch, BusOp.writeByte 0x4A release,
   BusOp.writeByte 0x4B touch, BusOp.writeByte 0x4C release,
   BusOp.writeByte 0x4D touch, BusOp.writeByte 0x4E release,
   BusOp.writeByte 0x4F touch, BusOp.writeByte 0x50 release,
   BusOp.writeByte 0x51 touch, BusOp.writeByte 0x52 release,
   BusOp.writeByte 0x53 touch, BusOp.writeByte 0x54 release,
   BusOp.writeByte 0x55 touch, BusOp.writeByte 0x56 release,
   BusOp.writeByte 0x57 touch, BusOp.writeByte 0x58 release,
   BusOp.writeByte 0x2B 0x01,
   BusOp.writeByte 0x2C 0x01,
   BusOp.writeByte 0x2D 0x0E,
   BusOp.writeByte 0x2E 0x00,
   BusOp.writeByte 0x2F 0x01,
   BusOp.writeByte 0x30 0x05,
   BusOp.writeByte 0x31 0x01,
   BusOp.writeByte 0x32 0x00,
   BusOp.writeByte 0x33 0x00,
   BusOp.writeByte 0x34 0x00,
   BusOp.writeByte 0x35 0x00,
   BusOp.writeByte 0x5B 0x00,
   BusOp.writeByte 0x5C 0x10,
   BusOp.writeByte 0x5D 0x20,
   BusOp.writeByte 0x5E 0x8F]

/-- Whether a reset step is the config2 readback check. -/
def ResetStep.isCheck : ResetStep → Bool
  | .checkConfig2 => true
  | .write _ _ => false

/-- Whether a run outcome is a returned (non-panic) failure: the only
error values `reset_with_thresholds` can return are transport errors. -/
def RunResult.isReturnedError : RunResult Unit → Bool
  | .transport _ => true
  | .ok _ => false
  | .panicked _ => false

/-- A transport on which every operation succeeds and the config2
readback returns the expected post-reset value 0x24. -/
def goodOracle : Oracle := fun k =>
  if k = 2 then Except.ok 0x24 else Except.ok 0x00

/-- A transport whose operations all succeed but whose config2 readback
returns 0x00 instead of 0x24. -/
def badConfig2Oracle : Oracle := fun _ => Except.ok 0x00

/-- A transport that fails with error code 7 on the 6th bus operation
(index 5, the touch-threshold write for channel 1) and succeeds before
it, returning 0x24 on the config2 readback. -/
def failAt5Oracle : Oracle := fun k =>
  if k = 5 then Except.error 7 else Except.ok 0x24

/-- Claim C4: for every 16-bit value v and channel c in [0,11],
`touched(TouchStatus(v), c)` is true exactly when bit c of v is set. -/
theorem touched_eq_bit (v c : Nat) (hv : v < 65536) (hc : c ≤ 11) :
    (Mpr121TouchStatus.new v).touched c = true ↔ v >>> c &&& 0x1 ≠ 0 := by
  simp [Mpr121TouchStatus.touched, Mpr121TouchStatus.new, Mpr121TouchStatus.last, hc,
    Nat.testBit_to_div_mod, Nat.shiftRight_eq_div_pow]

theorem touched_eq_bit_witness :
    (Mpr121TouchStatus.new 5).touched 0 = true ↔ 5 >>> 0 &&& 0x1 ≠ 0 :=
  touched_eq_bit 5 0 (by decide) (by decide)

/-- Claim C5: for every 16-bit value v and channel argument c in 12..=255,
`touched(TouchStatus(v), c)` returns false, even when reserved bits 12-15
of v are set. -/
theorem touched_out_of_range (v c : Nat) (hc1 : 12 ≤ c) (hc2 : c ≤ 255) :
    (Mpr121TouchStatus.new v).touched c = false := by
  unfold Mpr121TouchStatus.touched
  rw [if_neg]
  unfold Mpr121TouchStatus.last
  omega

theorem touched_out_of_range_witness :
    (Mpr121TouchStatus.new 0xF000).touched 12 = false :=
  touched_out_of_range 0xF000 12 (by decide) (by decide)

/-- Claim C7: for every 16-bit value v, `was_touched(TouchStatus(v))` is
true exactly when v is nonzero (reserved bits 12-15 included). -/
theorem was_touched_iff_ne_zero (v : Nat) (hv : v < 65536) :
    (Mpr121TouchStatus.new v).was_touched = true ↔ v ≠ 0 := by
  simp [Mpr121TouchStatus.was_touched, Mpr121TouchStatus.new]
  omega

theorem was_touched_iff_ne_zero_witness :
    (Mpr121TouchStatus.new 0x1000).was_touched = true ↔ 0x1000 ≠ 0 :=
  was_touched_iff_ne_zero 0x1000 (by decide)

/-- Claim C6: for every 16-bit value v, the iterator on TouchStatus(v)
yields exactly 12 values, in channel order, the k-th equal to
`touched(k)`; the 13th call returns None. -/
theorem iter_yields_exactly_12 (v : Nat) (hv : v < 65536) :
    (nextN (Mpr121TouchStatus.new v).iter 13).1 =
      [some ((Mpr121TouchStatus.new v).touched 0),
       some ((Mpr121TouchStatus.new v).touched 1),
       some ((Mpr121TouchStatus.new v).touched 2),
       some ((Mpr121TouchStatus.new v).touched 3),
       some ((Mpr121TouchStatus.new v).touched 4),
       some ((Mpr121TouchStatus.new v).touched 5),
       some ((Mpr121TouchStatus.new v).touched 6),
       some ((Mpr121TouchStatus.new v).touched 7),
       some ((Mpr121TouchStatus.new v).touched 8),
       some ((Mpr121TouchStatus.new v).touched 9),
       some ((Mpr121TouchStatus.new v).touched 10),
       some ((Mpr121TouchStatus.new v).touched 11),
       none] := by
  simp [nextN, Mpr121TouchStatus.iter, Mpr121TouchStatusIterator.next]

theorem iter_yields_exactly_12_witness :
    (nextN (Mpr121TouchStatus.new 2730).iter 13).1 =
      [some ((Mpr121TouchStatus.new 2730).touched 0),
       some ((Mpr121TouchStatus.new 2730).touched 1),
       some ((Mpr121TouchStatus.new 2730).touched 2),
       some ((Mpr121TouchStatus.new 2730).touched 3),
       some ((Mpr121TouchStatus.new 2730).touched 4),
       some ((Mpr121TouchStatus.new 2730).touched 5),
       some ((Mpr121TouchStatus.new 2730).touched 6),
       some ((Mpr121TouchStatus.new 2730).touched 7),
       some ((Mpr121TouchStatus.new 2730).touched 8),
       some ((Mpr121TouchStatus.new 2730).touched 9),
       some ((Mpr121TouchStatus.new 2730).touched 10),
       some ((Mpr121TouchStatus.new 2730).touched 11),
       none] :=
  iter_yields_exactly_12 2730 (by decide)

set_option maxRecDepth 10000 in
/-- Claim C10 fails on the code: after the 12 yields and 243 further None
results, the 256th call to `next` wraps the u8 counter back to 0 and
returns `Some false` (it queries `touched(255)`), so the iterator resumes
yielding instead of returning None forever; the counter overflows at that
call (a debug build would panic there). -/
theorem iterator_counter_wraps_at_call_256 :
    (nextN (Mpr121TouchStatus.new 0).iter 256).1[255]? = some (some false) ∧
    (nextN (Mpr121TouchStatus.new 0).iter 256).1[12]? = some none ∧
    (nextN (Mpr121TouchStatus.new 0).iter 256).2.count = 0 := by
  decide

/-- On a run whose outcome is `ok`, every step of the sequence was
executed, so the trace is exactly the steps' bus operations in order. -/
theorem runResetSteps_ok_trace (oracle : Oracle) :
    ∀ (steps : List ResetStep) (idx : Nat),
      (runResetSteps oracle steps idx).1 = RunResult.ok () →
      (runResetSteps oracle steps idx).2 = steps.map ResetStep.op := by
  intro steps
  induction steps with
  | nil => intro idx _; rfl
  | cons s rest ih =>
    intro idx h
    cases s with
    | write a v =>
      cases ho : oracle idx with
      | error e => simp [runResetSteps, ho] at h
      | ok u =>
        simp only [runResetSteps, ho] at h ⊢
        simp [ih (idx + 1) h, ResetStep.op]
    | checkConfig2 =>
      cases ho : oracle idx with
      | error e => simp [runResetSteps, ho] at h
      | ok u =>
        by_cases hu : u % 256 = 0x24
        · simp only [runResetSteps, ho, hu] at h ⊢
          simp at h ⊢
          simp [ih (idx + 1) h, ResetStep.op]
        · simp [runResetSteps, ho, hu] at h

/-- The step list of `reset_with_thresholds` issues exactly the expected
bus operations. -/
theorem resetSteps_map_op (touch release : Nat) :
    (resetSteps touch release).map ResetStep.op = expectedResetTrace touch release := by
  rfl

/-- Claim C1: for every pair of threshold arguments, a successful run of
`reset_with_thresholds` issues exactly the expected register operations,
in order — soft-reset 0x80:=0x63, ECR 0x5E:=0x00, the config2 readback,
the 24 caller-supplied threshold writes at 0x41+2i / 0x42+2i, the 11
baseline-filter writes, debounce, config1, config2 and ECR:=0x8F — and
no others. -/
theorem reset_with_thresholds_success_trace (oracle : Oracle) (touch release : Nat)
    (htouch : touch ≤ 255) (hrel : release ≤ 255)
    (h : (Mpr121.reset_with_thresholds oracle touch release).1 = RunResult.ok ()) :
    (Mpr121.reset_with_thresholds oracle touch release).2 =
      expectedResetTrace touch release := by
  have key := runResetSteps_ok_trace oracle (resetSteps touch release) 0 h
  unfold Mpr121.reset_with_thresholds at key ⊢
  rw [key, resetSteps_map_op]

theorem reset_with_thresholds_success_trace_witness :
    (Mpr121.reset_with_thresholds goodOracle 12 6).2 = expectedResetTrace 12 6 :=
  reset_with_thresholds_success_trace goodOracle 12 6 (by decide) (by decide) (by decide)

/-- Claim C8: `reset` is the same function of the transport as
`reset_with_thresholds` at touch threshold 12 and release threshold 6 —
same operations, same outcome. -/
theorem reset_eq_reset_with_thresholds_12_6 (oracle : Oracle) :
    Mpr121.reset oracle = Mpr121.reset_with_thresholds oracle 12 6 := by
  rfl

/-- Claim C9: `touch_status` issues exactly one word read, at the
touch-status base address 0x00; on success it returns the value read
wrapped as-is in a `Mpr121TouchStatus`, and on transport failure it
returns that transport error. -/
theorem touch_status_single_word_read (oracle : Oracle) :
    (Mpr121.touch_status oracle).2 = [BusOp.readWord Mpr121.REG_TOUCHSTATUS_L] ∧
    (∀ v, oracle 0 = Except.ok v → v < 65536 →
      (Mpr121.touch_status oracle).1 = RunResult.ok (Mpr121TouchStatus.new v)) ∧
    (∀ e, oracle 0 = Except.error e →
      (Mpr121.touch_status oracle).1 = RunResult.transport e) := by
  refine ⟨?_, ?_, ?_⟩
  · cases ho : oracle 0 <;> simp [Mpr121.touch_status, ho]
  · intro v hv hlt
    simp [Mpr121.touch_status, hv, Nat.mod_eq_of_lt hlt]
  · intro e he
    simp [Mpr121.touch_status, he]

theorem touch_status_single_word_read_witness :
    (Mpr121.touch_status badConfig2Oracle).1 =
      RunResult.ok (Mpr121TouchStatus.new 0x00) ∧
    (Mpr121.touch_status badConfig2Oracle).2 =
      [BusOp.readWord Mpr121.REG_TOUCHSTATUS_L] :=
  ⟨(touch_status_single_word_read badConfig2Oracle).2.1 0x00 rfl (by decide),
   (touch_status_single_word_read badConfig2Oracle).1⟩

/-- Claim C2 as stated is false on the code: with a transport whose
config2 readback returns 0x00 instead of 0x24, `reset_with_thresholds`
does not return an error value at all — it panics (the source's `panic!`
on the mismatch), and its result is not a returned error of any kind. -/
theorem config2_mismatch_panics_counterexample :
    (Mpr121.reset_with_thresholds badConfig2Oracle 12 6).1 =
      RunResult.panicked "Failed to find MPR121 in expected config state!" ∧
    RunResult.isReturnedError
      (Mpr121.reset_with_thresholds badConfig2Oracle 12 6).1 = false := by
  decide

/-- Claim C2 amended: if the config2 readback after the ECR clear returns
any value other than 0x24, `reset_with_thresholds` fails fatally by
panicking (not by returning an `UnexpectedDeviceState` error, which the
code does not have), halting the sequence before any threshold or
baseline-filter register write is issued: the trace ends at the readback. -/
theorem config2_mismatch_halts_before_thresholds (oracle : Oracle)
    (touch release u0 u1 v : Nat)
    (h0 : oracle 0 = Except.ok u0) (h1 : oracle 1 = Except.ok u1)
    (h2 : oracle 2 = Except.ok v) (hv : v % 256 ≠ 0x24) :
    (Mpr121.reset_with_thresholds oracle touch release).1 =
      RunResult.panicked "Failed to find MPR121 in expected config state!" ∧
    (Mpr121.reset_with_thresholds oracle touch release).2 =
      [BusOp.writeByte Mpr121.REG_SOFTRESET 0x63,
       BusOp.writeByte Mpr121.REG_ECR 0x00,
       BusOp.readByte Mpr121.REG_CONFIG2] := by
  unfold Mpr121.reset_with_thresholds resetSteps
  simp [runResetSteps, h0, h1, h2, hv]

theorem config2_mismatch_halts_before_thresholds_witness :
    (Mpr121.reset_with_thresholds badConfig2Oracle 12 6).1 =
      RunResult.panicked "Failed to find MPR121 in expected config state!" ∧
    (Mpr121.reset_with_thresholds badConfig2Oracle 12 6).2 =
      [BusOp.writeByte Mpr121.REG_SOFTRESET 0x63,
       BusOp.writeByte Mpr121.REG_ECR 0x00,
       BusOp.readByte Mpr121.REG_CONFIG2] :=
  config2_mismatch_halts_before_thresholds badConfig2Oracle 12 6 0 0 0
    rfl rfl rfl (by decide)

/-- If the first n operations of a reset sequence succeed (any config2
readback among them returning 0x24) and the operation of index n fails
with transport error e, the run returns that error and its trace is
exactly the first n+1 operations — nothing is issued after the failure. -/
theorem runResetSteps_abort (oracle : Oracle) :
    ∀ (steps : List ResetStep) (idx n e : Nat),
      n < steps.length →
      (∀ k, k < n → ∃ u, oracle (idx + k) = Except.ok u) →
      oracle (idx + n) = Except.error e →
      (∀ j v, j < n → steps[j]? = some ResetStep.checkConfig2 →
        oracle (idx + j) = Except.ok v → v % 256 = 0x24) →
      (runResetSteps oracle steps idx).1 = RunResult.transport e ∧
      (runResetSteps oracle steps idx).2 = (steps.map ResetStep.op).take (n + 1) := by
  intro steps
  induction steps with
  | nil =>
    intro idx n e hn hok herr hchk
    exact absurd hn (by simp)
  | cons s rest ih =>
    intro idx n e hn hok herr hchk
    cases n with
    | zero =>
      rw [Nat.add_zero] at herr
      cases s with
      | write a v => simp [runResetSteps, herr, ResetStep.op]
      | checkConfig2 => simp [runResetSteps, herr, ResetStep.op]
    | succ m =>
      obtain ⟨u, hu⟩ := hok 0 (by omega)
      rw [Nat.add_zero] at hu
      have herr' : oracle (idx + 1 + m) = Except.error e := by
        rw [show idx + 1 + m = idx + (m + 1) by omega]
        exact herr
      have hok' : ∀ k, k < m → ∃ w, oracle (idx + 1 + k) = Except.ok w := by
        intro k hk
        obtain ⟨w, hw⟩ := hok (k + 1) (by omega)
        exact ⟨w, by rw [show idx + 1 + k = idx + (k + 1) by omega]; exact hw⟩
      have hchk' : ∀ j v, j < m → rest[j]? = some ResetStep.checkConfig2 →
          oracle (idx + 1 + j) = Except.ok v → v % 256 = 0x24 := by
        intro j v hj hget hov
        refine hchk (j + 1) v (by omega) (by simpa using hget) ?_
        rw [show idx + (j + 1) = idx + 1 + j by omega]
        exact hov
      have hlen : m < rest.length := by
        simp at hn
        omega
      cases s with
      | write a v =>
        have hrest := ih (idx + 1) m e hlen hok' herr' hchk'
        simp only [runResetSteps, hu]
        exact ⟨hrest.1, by simp [hrest.2, ResetStep.op]⟩
      | checkConfig2 =>
        have hu24 : u % 256 = 0x24 := hchk 0 u (by omega) (by simp) hu
        have hrest := ih (idx + 1) m e hlen hok' herr' hchk'
        simp only [runResetSteps, hu, hu24]
        simp only [ne_eq, not_true_eq_false, if_false, ite_false]
        exact ⟨hrest.1, by simp [hrest.2, ResetStep.op]⟩

/-- The only config2 readback in the reset sequence is the third
operation (index 2). -/
theorem resetSteps_check_only_at_2 (touch release j : Nat)
    (h : (resetSteps touch release)[j]? = some ResetStep.checkConfig2) : j = 2 := by
  have hmap : ((resetSteps touch release).map ResetStep.isCheck)[j]? = some true := by
    rw [List.getElem?_map, h]
    rfl
  have heq : (resetSteps touch release).map ResetStep.isCheck =
      [false, false, true] ++ List.replicate 39 false := by
    rfl
  rw [heq] at hmap
  match j, hmap with
  | 0, hmap => simp at hmap
  | 1, hmap => simp at hmap
  | 2, _ => rfl
  | m + 3, hmap =>
    rw [List.getElem?_append_right (by simp)] at hmap
    rw [List.getElem?_replicate] at hmap
    split at hmap
    · simp at hmap
    · simp at hmap

/-- The reset sequence consists of 42 bus operations. -/
theorem resetSteps_length (touch release : Nat) :
    (resetSteps touch release).length = 42 := by
  rfl

/-- Claim C3: if the transport's first n operations succeed (with the
config2 readback, if reached, returning 0x24) and the operation of index
n fails with a transport error, `reset_with_thresholds` returns exactly
that error and its trace is the first n+1 expected operations — nothing
is issued after the failing operation, and no retry occurs. -/
theorem reset_with_thresholds_aborts_on_transport_error (oracle : Oracle)
    (touch release n e : Nat)
    (hn : n < 42)
    (hok : ∀ k, k < n → ∃ u, oracle k = Except.ok u)
    (herr : oracle n = Except.error e)
    (hchk : 2 < n → ∀ v, oracle 2 = Except.ok v → v % 256 = 0x24) :
    (Mpr121.reset_with_thresholds oracle touch release).1 = RunResult.transport e ∧
    (Mpr121.reset_with_thresholds oracle touch release).2 =
      (expectedResetTrace touch release).take (n + 1) := by
  have key := runResetSteps_abort oracle (resetSteps touch release) 0 n e
    (by rw [resetSteps_length]; exact hn)
    (by intro k hk; simpa using hok k hk)
    (by simpa using herr)
    (by
      intro j v hj hget hov
      have hj2 := resetSteps_check_only_at_2 touch release j hget
      subst hj2
      exact hchk (by omega) v (by simpa using hov))
  unfold Mpr121.reset_with_thresholds
  exact ⟨key.1, by rw [key.2, resetSteps_map_op]⟩

theorem reset_with_thresholds_aborts_on_transport_error_witness :
    (Mpr121.reset_with_thresholds failAt5Oracle 12 6).1 = RunResult.transport 7 ∧
    (Mpr121.reset_with_thresholds failAt5Oracle 12 6).2 =
      (expectedResetTrace 12 6).take 6 :=
  reset_with_thresholds_aborts_on_transport_error failAt5Oracle 12 6 5 7
    (by decide)
    (by
      intro k hk
      refine ⟨0x24, ?_⟩
      unfold failAt5Oracle
      rw [if_neg (by omega)])
    (by
      unfold failAt5Oracle
      rfl)
    (by
      intro _ v hv
      unfold failAt5Oracle at hv
      rw [if_neg (by omega)] at hv
      injection hv with hv
      omega)
